import Mathlib

/-!
Verification of the proxy-provider and proxy-group configuration subsystem of
clash-rs, shallowly embedded from
`src/clash_lib/src/config/internal/proxy.rs` and
`src/clash_lib/src/app/proxy_manager/providers/plain_provider.rs`.

Configuration values are modelled as a small YAML value type; serde map
deserialization of the config structs is embedded as explicit decoder
functions over association lists (a `HashMap<String, Value>` has unique keys,
so an association list with first-match lookup is a faithful model).
-/

namespace Clash

/-- Model of `serde_yaml::Value` restricted to the shapes the embedded
structs consume: null, booleans, integers, strings, sequences, mappings. -/
inductive Value where
  | null : Value
  | bool : Bool → Value
  | int : Int → Value
  | str : String → Value
  | seq : List Value → Value
  | map : List (String × Value) → Value

/-- Model of `crate::Error`; only the `InvalidConfig` variant appears in the
embedded code. -/
inductive Error where
  | invalidConfig : String → Error

/-- The `map_serde_error` from proxy.rs: wraps a serde error message into
`Error::InvalidConfig` (the location decoration on the message is elided;
serde errors are modelled as their message strings). -/
def map_serde_error (x : String) : Error := Error.invalidConfig x

/-- First-match key lookup in a config mapping, modelling `HashMap` access
during `MapDeserializer` field resolution. -/
def lookupVal : List (String × Value) → String → Option Value
  | [], _ => none
  | (k, v) :: rest, key => if k = key then some v else lookupVal rest key

/-- Decode a required string field (serde: missing or wrongly-typed field is
an error). -/
def getStr (m : List (String × Value)) (k : String) : Except String String :=
  match lookupVal m k with
  | some (Value.str s) => Except.ok s
  | some _ => Except.error ("invalid type for field " ++ k)
  | none => Except.error ("missing field " ++ k)

/-- Decode an optional string field (serde `Option<String>`: absent or null
is `None`). -/
def getOptStr (m : List (String × Value)) (k : String) : Except String (Option String) :=
  match lookupVal m k with
  | none => Except.ok none
  | some Value.null => Except.ok none
  | some (Value.str s) => Except.ok (some s)
  | some _ => Except.error ("invalid type for field " ++ k)

/-- Decode a list of YAML values all of which must be strings. -/
def strListOf : List Value → Except String (List String)
  | [] => Except.ok []
  | Value.str s :: rest => (strListOf rest).map (fun l => s :: l)
  | _ :: _ => Except.error "invalid type: expected a string"

/-- Decode a YAML value as a sequence of strings (serde `Vec<String>`). -/
def asStrList : Value → Except String (List String)
  | Value.seq vs => strListOf vs
  | _ => Except.error "invalid type: expected a sequence"

/-- Decode a required `Vec<String>` field. -/
def getStrList (m : List (String × Value)) (k : String) : Except String (List String) :=
  match lookupVal m k with
  | none => Except.error ("missing field " ++ k)
  | some v => asStrList v

/-- Decode an optional `Option<Vec<String>>` field (absent or null is
`None`). -/
def getOptStrList (m : List (String × Value)) (k : String) :
    Except String (Option (List String)) :=
  match lookupVal m k with
  | none => Except.ok none
  | some Value.null => Except.ok none
  | some v => (asStrList v).map some

/-- Decode a required `bool` field. -/
def getBool (m : List (String × Value)) (k : String) : Except String Bool :=
  match lookupVal m k with
  | some (Value.bool b) => Except.ok b
  | some _ => Except.error ("invalid type for field " ++ k)
  | none => Except.error ("missing field " ++ k)

/-- Decode an optional `Option<bool>` field. -/
def getOptBool (m : List (String × Value)) (k : String) : Except String (Option Bool) :=
  match lookupVal m k with
  | none => Except.ok none
  | some Value.null => Except.ok none
  | some (Value.bool b) => Except.ok (some b)
  | some _ => Except.error ("invalid type for field " ++ k)

/-- Decode a required `u16` field (port numbers). -/
def getU16 (m : List (String × Value)) (k : String) : Except String Nat :=
  match lookupVal m k with
  | some (Value.int n) =>
      if 0 ≤ n ∧ n < 65536 then Except.ok n.toNat
      else Except.error ("invalid value for field " ++ k)
  | some _ => Except.error ("invalid type for field " ++ k)
  | none => Except.error ("missing field " ++ k)

/-- Decode an optional `Option<i32>` field (the `tolerance` field). -/
def getOptI32 (m : List (String × Value)) (k : String) : Except String (Option Int) :=
  match lookupVal m k with
  | none => Except.ok none
  | some Value.null => Except.ok none
  | some (Value.int n) =>
      if -2147483648 ≤ n ∧ n < 2147483648 then Except.ok (some n)
      else Except.error ("invalid value for field " ++ k)
  | some _ => Except.error ("invalid type for field " ++ k)

/-- Modelled from the spec: `utils::deserialize_u64` (config/utils.rs is not
under src/). Per §6 of the spec the health-check `interval` "accepts a bare
non-negative integer number of seconds" parsed into an unsigned 64-bit
value; any other shape, or a negative integer, is a deserialization
error. -/
def deserialize_u64 (v : Value) : Except String Nat :=
  match v with
  | Value.int n =>
      if 0 ≤ n ∧ n < 18446744073709551616 then Except.ok n.toNat
      else Except.error "invalid value: expected a non-negative integer"
  | _ => Except.error "invalid type: expected an integer"

/-- Decode a required `u64` field that goes through `deserialize_u64`
(the `interval` fields carry `#[serde(deserialize_with = "utils::deserialize_u64")]`). -/
def getU64 (m : List (String × Value)) (k : String) : Except String Nat :=
  match lookupVal m k with
  | none => Except.error ("missing field " ++ k)
  | some v => deserialize_u64 v

/-- Decode a map of YAML values all of which must be strings. -/
def strMapOf : List (String × Value) → Except String (List (String × String))
  | [] => Except.ok []
  | (k, Value.str s) :: rest => (strMapOf rest).map (fun l => (k, s) :: l)
  | _ :: _ => Except.error "invalid type: expected a string"

/-- Decode an optional `Option<HashMap<String, String>>` field. -/
def getOptStrMap (m : List (String × Value)) (k : String) :
    Except String (Option (List (String × String))) :=
  match lookupVal m k with
  | none => Except.ok none
  | some Value.null => Except.ok none
  | some (Value.map kvs) => (strMapOf kvs).map some
  | some _ => Except.error ("invalid type for field " ++ k)

/-- Decode an optional `Option<HashMap<String, serde_yaml::Value>>` field
(the `plugin_opts` field). -/
def getOptValMap (m : List (String × Value)) (k : String) :
    Except String (Option (List (String × Value))) :=
  match lookupVal m k with
  | none => Except.ok none
  | some Value.null => Except.ok none
  | some (Value.map kvs) => Except.ok (some kvs)
  | some _ => Except.error ("invalid type for field " ++ k)

/-- The `PROXY_DIRECT` constant from proxy.rs. -/
def PROXY_DIRECT : String := "DIRECT"

/-- The `PROXY_REJECT` constant from proxy.rs. -/
def PROXY_REJECT : String := "REJECT"

/-- The `PROXY_GLOBAL` constant from proxy.rs. -/
def PROXY_GLOBAL : String := "GLOBAL"

/-- The `OutboundShadowsocks` struct from proxy.rs. -/
structure OutboundShadowsocks where
  name : String
  server : String
  port : Nat
  cipher : String
  password : String
  udp : Bool
  plugin : Option String
  plugin_opts : Option (List (String × Value))

/-- The `OutboundSocks5` struct from proxy.rs. -/
structure OutboundSocks5 where
  name : String
  server : String
  port : Nat
  username : Option String
  password : Option String
  tls : Bool
  skip_cert_verity : Bool
  udp : Bool

/-- The `WsOpt` struct from proxy.rs. -/
structure WsOpt where
  path : Option String
  headers : Option (List (String × String))
  max_early_data : Option Int
  early_data_header_name : Option String

/-- The `GrpcOpt` struct from proxy.rs. -/
structure GrpcOpt where
  grpc_service_name : Option String

/-- The `OutboundTrojan` struct from proxy.rs. -/
structure OutboundTrojan where
  name : String
  server : String
  port : Nat
  password : String
  alpn : Option (List String)
  sni : Option String
  skip_cert_verify : Option Bool
  udp : Option Bool
  network : Option String
  grpc_opts : Option GrpcOpt
  ws_opts : Option WsOpt

/-- The `OutboundProxyProtocol` enum from proxy.rs. `Direct` and `Reject` carry
`#[serde(skip)]`; `Ss`, `Socks5`, `Trojan` carry serde renames `ss`,
`socks5`, `trojan` under the internal tag `type`. -/
inductive OutboundProxyProtocol where
  | Direct : OutboundProxyProtocol
  | Reject : OutboundProxyProtocol
  | Ss : OutboundShadowsocks → OutboundProxyProtocol
  | Socks5 : OutboundSocks5 → OutboundProxyProtocol
  | Trojan : OutboundTrojan → OutboundProxyProtocol

/-- The `OutboundProxyProtocol::name` from proxy.rs. -/
def OutboundProxyProtocol.name : OutboundProxyProtocol → String
  | OutboundProxyProtocol.Direct => PROXY_DIRECT
  | OutboundProxyProtocol.Reject => PROXY_REJECT
  | OutboundProxyProtocol.Ss ss => ss.name
  | OutboundProxyProtocol.Socks5 socks5 => socks5.name
  | OutboundProxyProtocol.Trojan trojan => trojan.name

/-- serde derive for `OutboundShadowsocks`: fields in declaration order,
unknown keys ignored. -/
def decodeShadowsocks (m : List (String × Value)) : Except String OutboundShadowsocks := do
  let name ← getStr m "name"
  let server ← getStr m "server"
  let port ← getU16 m "port"
  let cipher ← getStr m "cipher"
  let password ← getStr m "password"
  let udp ← getBool m "udp"
  let plugin ← getOptStr m "plugin"
  let plugin_opts ← getOptValMap m "plugin_opts"
  pure ⟨name, server, port, cipher, password, udp, plugin, plugin_opts⟩

/-- serde derive for `OutboundSocks5`. -/
def decodeSocks5 (m : List (String × Value)) : Except String OutboundSocks5 := do
  let name ← getStr m "name"
  let server ← getStr m "server"
  let port ← getU16 m "port"
  let username ← getOptStr m "username"
  let password ← getOptStr m "password"
  let tls ← getBool m "tls"
  let skip_cert_verity ← getBool m "skip_cert_verity"
  let udp ← getBool m "udp"
  pure ⟨name, server, port, username, password, tls, skip_cert_verity, udp⟩

/-- serde derive for `WsOpt`. -/
def decodeWsOpt (m : List (String × Value)) : Except String WsOpt := do
  let path ← getOptStr m "path"
  let headers ← getOptStrMap m "headers"
  let max_early_data ← getOptI32 m "max_early_data"
  let early_data_header_name ← getOptStr m "early_data_header_name"
  pure ⟨path, headers, max_early_data, early_data_header_name⟩

/-- serde derive for `GrpcOpt`. -/
def decodeGrpcOpt (m : List (String × Value)) : Except String GrpcOpt := do
  let grpc_service_name ← getOptStr m "grpc_service_name"
  pure ⟨grpc_service_name⟩

/-- Decode an optional nested struct field (`Option<GrpcOpt>` / `Option<WsOpt>`):
absent or null is `None`; present value must be a mapping decoded by `sub`. -/
def getOptNested {α : Type} (sub : List (String × Value) → Except String α)
    (m : List (String × Value)) (k : String) : Except String (Option α) :=
  match lookupVal m k with
  | none => Except.ok none
  | some Value.null => Except.ok none
  | some (Value.map kvs) => (sub kvs).map some
  | some _ => Except.error ("invalid type for field " ++ k)

/-- Decode an `Option<Vec<String>>` field (the `alpn` field). -/
def decodeTrojan (m : List (String × Value)) : Except String OutboundTrojan := do
  let name ← getStr m "name"
  let server ← getStr m "server"
  let port ← getU16 m "port"
  let password ← getStr m "password"
  let alpn ← getOptStrList m "alpn"
  let sni ← getOptStr m "sni"
  let skip_cert_verify ← getOptBool m "skip_cert_verify"
  let udp ← getOptBool m "udp"
  let network ← getOptStr m "network"
  let grpc_opts ← getOptNested decodeGrpcOpt m "grpc_opts"
  let ws_opts ← getOptNested decodeWsOpt m "ws_opts"
  pure ⟨name, server, port, password, alpn, sni, skip_cert_verify, udp, network, grpc_opts, ws_opts⟩

/-- serde internally-tagged deserialization of `OutboundProxyProtocol`:
dispatch on the `type` tag. `Direct`/`Reject` are `#[serde(skip)]`, so no
tag value reaches them. -/
def OutboundProxyProtocol.deserialize (m : List (String × Value)) :
    Except String OutboundProxyProtocol :=
  match lookupVal m "type" with
  | some (Value.str t) =>
      if t = "ss" then (decodeShadowsocks m).map OutboundProxyProtocol.Ss
      else if t = "socks5" then (decodeSocks5 m).map OutboundProxyProtocol.Socks5
      else if t = "trojan" then (decodeTrojan m).map OutboundProxyProtocol.Trojan
      else Except.error ("unknown variant " ++ t)
  | some _ => Except.error "invalid type: tag is not a string"
  | none => Except.error "missing field type"

/-- The `TryFrom<HashMap<String, Value>> for OutboundProxyProtocol`:
deserialize and wrap any serde error via `map_serde_error`. -/
def OutboundProxyProtocol.tryFrom (m : List (String × Value)) :
    Except Error OutboundProxyProtocol :=
  (OutboundProxyProtocol.deserialize m).mapError map_serde_error

/-- The `OutboundGroupRelay` struct from proxy.rs: `proxies` and `use`
(`use_provider`) are both optional. -/
structure OutboundGroupRelay where
  name : String
  proxies : Option (List String)
  use_provider : Option (List String)

/-- The `OutboundGroupUrlTest` struct from proxy.rs. -/
structure OutboundGroupUrlTest where
  name : String
  proxies : Option (List String)
  use_provider : Option (List String)
  url : String
  interval : Nat
  tolerance : Option Int
  lazy : Option Bool

/-- The `OutboundGroupFallback` struct from proxy.rs: note that `proxies` is a
required `Vec<String>` and there is no `use` field. -/
structure OutboundGroupFallback where
  name : String
  proxies : List String
  url : String
  interval : Nat

/-- The `LoadBalanceStrategy` enum from proxy.rs. -/
inductive LoadBalanceStrategy where
  | ConsistentHashing : LoadBalanceStrategy
  | RoundRobin : LoadBalanceStrategy

/-- The `OutboundGroupLoadBalance` struct from proxy.rs. -/
structure OutboundGroupLoadBalance where
  name : String
  proxies : Option (List String)
  use_provider : Option (List String)
  url : String
  interval : Nat
  strategy : Option LoadBalanceStrategy

/-- The `OutboundGroupSelect` struct from proxy.rs. -/
structure OutboundGroupSelect where
  name : String
  proxies : Option (List String)
  use_provider : Option (List String)

/-- serde deserialization of `LoadBalanceStrategy` (renames
`consistent-hashing` and `round-robin`). -/
def asStrategy : Value → Except String LoadBalanceStrategy
  | Value.str s =>
      if s = "consistent-hashing" then Except.ok LoadBalanceStrategy.ConsistentHashing
      else if s = "round-robin" then Except.ok LoadBalanceStrategy.RoundRobin
      else Except.error ("unknown variant " ++ s)
  | _ => Except.error "invalid type: expected a string"

/-- Decode the optional `strategy` field. -/
def getOptStrategy (m : List (String × Value)) (k : String) :
    Except String (Option LoadBalanceStrategy) :=
  match lookupVal m k with
  | none => Except.ok none
  | some Value.null => Except.ok none
  | some v => (asStrategy v).map some

/-- serde derive for `OutboundGroupRelay`. -/
def decodeRelay (m : List (String × Value)) : Except String OutboundGroupRelay := do
  let name ← getStr m "name"
  let proxies ← getOptStrList m "proxies"
  let use_provider ← getOptStrList m "use"
  pure ⟨name, proxies, use_provider⟩

/-- serde derive for `OutboundGroupUrlTest`; `interval` goes through
`deserialize_u64`. -/
def decodeUrlTest (m : List (String × Value)) : Except String OutboundGroupUrlTest := do
  let name ← getStr m "name"
  let proxies ← getOptStrList m "proxies"
  let use_provider ← getOptStrList m "use"
  let url ← getStr m "url"
  let interval ← getU64 m "interval"
  let tolerance ← getOptI32 m "tolerance"
  let lazy ← getOptBool m "lazy"
  pure ⟨name, proxies, use_provider, url, interval, tolerance, lazy⟩

/-- serde derive for `OutboundGroupFallback`: `proxies` is required and
there is no `use` field. -/
def decodeFallback (m : List (String × Value)) : Except String OutboundGroupFallback := do
  let name ← getStr m "name"
  let proxies ← getStrList m "proxies"
  let url ← getStr m "url"
  let interval ← getU64 m "interval"
  pure ⟨name, proxies, url, interval⟩

/-- serde derive for `OutboundGroupLoadBalance`. -/
def decodeLoadBalance (m : List (String × Value)) : Except String OutboundGroupLoadBalance := do
  let name ← getStr m "name"
  let proxies ← getOptStrList m "proxies"
  let use_provider ← getOptStrList m "use"
  let url ← getStr m "url"
  let interval ← getU64 m "interval"
  let strategy ← getOptStrategy m "strategy"
  pure ⟨name, proxies, use_provider, url, interval, strategy⟩

/-- serde derive for `OutboundGroupSelect`. -/
def decodeSelect (m : List (String × Value)) : Except String OutboundGroupSelect := do
  let name ← getStr m "name"
  let proxies ← getOptStrList m "proxies"
  let use_provider ← getOptStrList m "use"
  pure ⟨name, proxies, use_provider⟩

/-- The `OutboundGroupProtocol` enum from proxy.rs, internally tagged by `type`
with renames `relay`, `url-test`, `fallback`, `load-balance`, `select`. -/
inductive OutboundGroupProtocol where
  | Relay : OutboundGroupRelay → OutboundGroupProtocol
  | UrlTest : OutboundGroupUrlTest → OutboundGroupProtocol
  | Fallback : OutboundGroupFallback → OutboundGroupProtocol
  | LoadBalance : OutboundGroupLoadBalance → OutboundGroupProtocol
  | Select : OutboundGroupSelect → OutboundGroupProtocol

/-- The `OutboundGroupProtocol::name` from proxy.rs. -/
def OutboundGroupProtocol.name : OutboundGroupProtocol → String
  | OutboundGroupProtocol.Relay g => g.name
  | OutboundGroupProtocol.UrlTest g => g.name
  | OutboundGroupProtocol.Fallback g => g.name
  | OutboundGroupProtocol.LoadBalance g => g.name
  | OutboundGroupProtocol.Select g => g.name

/-- serde internally-tagged deserialization of `OutboundGroupProtocol`:
dispatch on the `type` tag. -/
def OutboundGroupProtocol.deserialize (m : List (String × Value)) :
    Except String OutboundGroupProtocol :=
  match lookupVal m "type" with
  | some (Value.str t) =>
      if t = "relay" then (decodeRelay m).map OutboundGroupProtocol.Relay
      else if t = "url-test" then (decodeUrlTest m).map OutboundGroupProtocol.UrlTest
      else if t = "fallback" then (decodeFallback m).map OutboundGroupProtocol.Fallback
      else if t = "load-balance" then (decodeLoadBalance m).map OutboundGroupProtocol.LoadBalance
      else if t = "select" then (decodeSelect m).map OutboundGroupProtocol.Select
      else Except.error ("unknown variant " ++ t)
  | some _ => Except.error "invalid type: tag is not a string"
  | none => Except.error "missing field type"

/-- The `TryFrom<HashMap<String, Value>> for OutboundGroupProtocol`. -/
def OutboundGroupProtocol.tryFrom (m : List (String × Value)) :
    Except Error OutboundGroupProtocol :=
  (OutboundGroupProtocol.deserialize m).mapError map_serde_error

/-- Modelled from the spec: `AnyOutboundHandler` (the outbound handler
implementations are out of scope, §1): an opaque, named capability with a
serializable summary (`name()` and `as_map()` are the only operations the
embedded code consumes). -/
structure AnyOutboundHandler where
  name : String
  summary : List (String × Value)

/-- The `as_map` of an outbound handle: its serializable summary. -/
def AnyOutboundHandler.as_map (h : AnyOutboundHandler) : List (String × Value) :=
  h.summary

/-- Modelled from the spec: the `HealthCheck` engine state
(app/proxy_manager/healthcheck.rs is not under src/). Per §3 it holds the
test URL, the probe interval in seconds, the `lazy` flag, whether the
background loop has been started, the per-handle result table
(alive, delay-or-unmeasured) and the last-touch timestamp. -/
structure HealthCheck where
  url : String
  interval : Nat
  lazy : Bool
  started : Bool
  resultTable : List (String × Bool × Option Nat)
  lastTouch : Option Nat

/-- Modelled from the spec: `HealthCheck::auto` — §6: implicit `auto` =
"interval > 0 and not lazy". -/
def HealthCheck.auto (hc : HealthCheck) : Bool :=
  decide (0 < hc.interval) && !hc.lazy

/-- Modelled from the spec: `HealthCheck::kick_off` starts the background
probe loop (§4.1). -/
def HealthCheck.kick_off (hc : HealthCheck) : HealthCheck :=
  { hc with started := true }

/-- Modelled from the spec: `HealthCheck::touch` records "now" as the
last-used time; in lazy mode it also starts the timer if it has not started
yet (§4.1). -/
def HealthCheck.touch (now : Nat) (hc : HealthCheck) : HealthCheck :=
  { hc with lastTouch := some now, started := hc.started || hc.lazy }

/-- Modelled from the spec: `HealthCheck::check` forces one probe pass now
(§4.1); the per-handle network outcomes of the pass are a parameter of the
model, and the pass replaces the result table. -/
def HealthCheck.check (outcomes : List (String × Bool × Option Nat))
    (hc : HealthCheck) : HealthCheck :=
  { hc with resultTable := outcomes }

/-- Modelled from the spec: `ProviderType` (providers/mod.rs is not under
src/) — §3: provider kind, proxy-set vs rule-set. -/
inductive ProviderType where
  | Proxy : ProviderType
  | Rule : ProviderType

/-- Modelled from the spec: the `Display` string of a `ProviderType`, used
as the `type` tag of the observability surface. -/
def ProviderType.toString : ProviderType → String
  | ProviderType.Proxy => "Proxy"
  | ProviderType.Rule => "Rule"

/-- Modelled from the spec: `ProviderVehicleType` (providers/mod.rs is not
under src/) — §3: vehicle kind, compatible/built-in static list,
file-backed, HTTP-subscription-backed. -/
inductive ProviderVehicleType where
  | File : ProviderVehicleType
  | Http : ProviderVehicleType
  | Compatible : ProviderVehicleType

/-- Modelled from the spec: the `Display` string of a
`ProviderVehicleType`, used as the `vehicleType` tag of the observability
surface. -/
def ProviderVehicleType.toString : ProviderVehicleType → String
  | ProviderVehicleType.File => "File"
  | ProviderVehicleType.Http => "HTTP"
  | ProviderVehicleType.Compatible => "Compatible"

/-- The `Inner` struct from plain_provider.rs: the lock-guarded state block
holding the health-check engine. -/
structure Inner where
  hc : HealthCheck

/-- The `PlainProvider` struct from plain_provider.rs. -/
structure PlainProvider where
  name : String
  proxies : List AnyOutboundHandler
  inner : Inner

/-- The `PlainProvider::new` from plain_provider.rs: rejects an empty handle
list with `Error::InvalidConfig`, kicks off the health check when the
engine's `auto()` flag is set, and otherwise stores the fields as given. -/
def PlainProvider.new (name : String) (proxies : List AnyOutboundHandler)
    (hc : HealthCheck) : Except Error PlainProvider :=
  if proxies.isEmpty then
    Except.error (Error.invalidConfig (name ++ ": proxies is empty"))
  else
    let hc2 := if hc.auto then hc.kick_off else hc
    Except.ok { name := name, proxies := proxies, inner := { hc := hc2 } }

/-- The `PlainProvider::vehicle_type` from plain_provider.rs: always
`Compatible`. -/
def PlainProvider.vehicle_type (_ : PlainProvider) : ProviderVehicleType :=
  ProviderVehicleType.Compatible

/-- The `PlainProvider::typ` from plain_provider.rs: always `Proxy`. -/
def PlainProvider.typ (_ : PlainProvider) : ProviderType :=
  ProviderType.Proxy

/-- The `PlainProvider::initialize` from plain_provider.rs: returns `Ok(())`
and changes nothing (result paired with the post-state). -/
def PlainProvider.init (p : PlainProvider) : Except String Unit × PlainProvider :=
  (Except.ok (), p)

/-- The `PlainProvider::update` from plain_provider.rs: returns `Ok(())` and
changes nothing (result paired with the post-state). -/
def PlainProvider.update (p : PlainProvider) : Except String Unit × PlainProvider :=
  (Except.ok (), p)

/-- The `PlainProvider::proxies` from plain_provider.rs: returns
`self.proxies.clone()` (result paired with the post-state; the clone is an
independent value). Named `proxiesClone` because the struct field already
carries the source name `proxies`. -/
def PlainProvider.proxiesClone (p : PlainProvider) : List AnyOutboundHandler × PlainProvider :=
  (p.proxies, p)

/-- The `PlainProvider::as_map` from plain_provider.rs: inserts `name`, `type`,
`vehicleType` and the per-handle summary list under `proxies`. -/
def PlainProvider.as_map (p : PlainProvider) : List (String × Value) :=
  [("name", Value.str p.name),
   ("type", Value.str (ProviderType.toString p.typ)),
   ("vehicleType", Value.str (ProviderVehicleType.toString p.vehicle_type)),
   ("proxies", Value.seq (p.proxiesClone.1.map (fun x => Value.map x.as_map)))]

/-- The `PlainProvider::touch` from plain_provider.rs: delegates to the owned
engine under the inner lock (the timestamp is a parameter of the model). -/
def PlainProvider.touch (now : Nat) (p : PlainProvider) : PlainProvider :=
  { p with inner := { hc := p.inner.hc.touch now } }

/-- The `PlainProvider::healthcheck` from plain_provider.rs: delegates to the
owned engine under the inner lock (probe outcomes are a parameter of the
model). -/
def PlainProvider.healthcheck (outcomes : List (String × Bool × Option Nat))
    (p : PlainProvider) : PlainProvider :=
  { p with inner := { hc := p.inner.hc.check outcomes } }

/-! ## Shared helper lemmas and sample values -/

/-- Inversion of `PlainProvider.new` on success: the constructed provider
holds exactly the given fields, with the engine kicked off when `auto`. -/
theorem new_ok_inv (name : String) (proxies : List AnyOutboundHandler)
    (hc : HealthCheck) (p : PlainProvider)
    (h : PlainProvider.new name proxies hc = Except.ok p) :
    p = { name := name, proxies := proxies,
          inner := { hc := if hc.auto then hc.kick_off else hc } } := by
  unfold PlainProvider.new at h
  cases hpe : proxies.isEmpty with
  | true => simp [hpe] at h
  | false =>
      simp [hpe] at h
      exact h.symm

/-- A sample health-check engine with `interval = 30`, not lazy (so
`auto` holds). -/
def sampleHC : HealthCheck :=
  { url := "http://www.gstatic.com/generate_204", interval := 30, lazy := false,
    started := false, resultTable := [], lastTouch := none }

/-- A sample lazy health-check engine (so `auto` does not hold). -/
def sampleLazyHC : HealthCheck :=
  { url := "http://www.gstatic.com/generate_204", interval := 30, lazy := true,
    started := false, resultTable := [], lastTouch := none }

/-- A sample outbound handle. -/
def sampleHandler : AnyOutboundHandler :=
  { name := "h1", summary := [("name", Value.str "h1")] }

/-! ## C1 -/

/-- C1: for every provider name, health-check engine and handle list,
`PlainProvider::new` returns an `InvalidConfig` error when the handle list
is empty, and succeeds holding exactly that list (and name) when the list
is non-empty. -/
theorem plainProvider_new_empty_rejected_nonempty_ok (name : String)
    (hc : HealthCheck) (proxies : List AnyOutboundHandler) :
    (proxies = [] →
      PlainProvider.new name proxies hc =
        Except.error (Error.invalidConfig (name ++ ": proxies is empty"))) ∧
    (proxies ≠ [] →
      ∃ p, PlainProvider.new name proxies hc = Except.ok p ∧
        p.name = name ∧ p.proxies = proxies) := by
  constructor
  · intro h
    subst h
    rfl
  · intro h
    have hpe : proxies.isEmpty = false := by
      cases proxies with
      | nil => exact absurd rfl h
      | cons a l => rfl
    refine ⟨{ name := name, proxies := proxies,
              inner := { hc := if hc.auto then hc.kick_off else hc } }, ?_, rfl, rfl⟩
    unfold PlainProvider.new
    rw [hpe]
    simp

/-- Witness for C1 at concrete inputs: the empty list is rejected with the
exact `InvalidConfig` message and a one-element list is accepted. -/
theorem plainProvider_new_empty_rejected_nonempty_ok_witness :
    (PlainProvider.new "p" [] sampleHC =
      Except.error (Error.invalidConfig ("p" ++ ": proxies is empty"))) ∧
    (∃ p, PlainProvider.new "p" [sampleHandler] sampleHC = Except.ok p ∧
      p.name = "p" ∧ p.proxies = [sampleHandler]) :=
  ⟨(plainProvider_new_empty_rejected_nonempty_ok "p" sampleHC []).1 rfl,
   (plainProvider_new_empty_rejected_nonempty_ok "p" sampleHC [sampleHandler]).2
     (by simp)⟩

/-- The provider built by `PlainProvider.new "p" [sampleHandler] sampleHC`
(auto engine, so kicked off). -/
def sampleProviderAuto : PlainProvider :=
  { name := "p", proxies := [sampleHandler], inner := { hc := sampleHC.kick_off } }

/-- The provider built by `PlainProvider.new "p" [sampleHandler]
sampleLazyHC` (non-auto engine, stored untouched). -/
def sampleProviderLazy : PlainProvider :=
  { name := "p", proxies := [sampleHandler], inner := { hc := sampleLazyHC } }

/-! ## C4 -/

/-- C4: `PlainProvider::new` kicks off the health-check engine during
construction exactly when the engine's `auto` flag is set: with `auto` the
stored engine is `hc.kick_off` (its loop started), without `auto` the
engine is stored completely untouched. -/
theorem plainProvider_new_kick_off_iff_auto (name : String)
    (proxies : List AnyOutboundHandler) (hc : HealthCheck) (p : PlainProvider)
    (h : PlainProvider.new name proxies hc = Except.ok p) :
    (hc.auto = true → p.inner.hc = hc.kick_off ∧ p.inner.hc.started = true) ∧
    (hc.auto = false → p.inner.hc = hc) := by
  have hp := new_ok_inv name proxies hc p h
  subst hp
  constructor
  · intro ha
    simp [ha, HealthCheck.kick_off]
  · intro ha
    simp [ha]

/-- Witness for C4: the auto engine is kicked off at construction, the lazy
engine is stored untouched. -/
theorem plainProvider_new_kick_off_iff_auto_witness :
    (sampleProviderAuto.inner.hc = sampleHC.kick_off ∧
      sampleProviderAuto.inner.hc.started = true) ∧
    sampleProviderLazy.inner.hc = sampleLazyHC :=
  ⟨(plainProvider_new_kick_off_iff_auto "p" [sampleHandler] sampleHC
      sampleProviderAuto rfl).1 rfl,
   (plainProvider_new_kick_off_iff_auto "p" [sampleHandler] sampleLazyHC
      sampleProviderLazy rfl).2 rfl⟩

/-! ## C5 -/

/-- C5: `initialize()` and `update()` of a `PlainProvider` both return
success and are no-ops: the provider (name, handle set, health-check
state) is exactly the same after either call. -/
theorem plainProvider_init_update_noop (p : PlainProvider) :
    p.init.1 = Except.ok () ∧ p.init.2 = p ∧
    p.init.2.name = p.name ∧ p.init.2.proxies = p.proxies ∧
    p.init.2.inner.hc = p.inner.hc ∧
    p.update.1 = Except.ok () ∧ p.update.2 = p ∧
    p.update.2.name = p.name ∧ p.update.2.proxies = p.proxies ∧
    p.update.2.inner.hc = p.inner.hc :=
  ⟨rfl, rfl, rfl, rfl, rfl, rfl, rfl, rfl, rfl, rfl⟩

/-! ## C6 -/

/-- C6: `proxies()` returns the handle list supplied at construction and
leaves the provider state unchanged. The returned list is a clone: in this
pure embedding it is an independent value, so no operation on it can reach
the provider's internal `proxies` field. -/
theorem plainProvider_proxies_returns_construction_list (name : String)
    (proxies : List AnyOutboundHandler) (hc : HealthCheck) (p : PlainProvider)
    (h : PlainProvider.new name proxies hc = Except.ok p) :
    p.proxiesClone.1 = proxies ∧ p.proxiesClone.2 = p := by
  have hp := new_ok_inv name proxies hc p h
  subst hp
  exact ⟨rfl, rfl⟩

/-- Witness for C6 at the sample provider. -/
theorem plainProvider_proxies_returns_construction_list_witness :
    sampleProviderAuto.proxiesClone.1 = [sampleHandler] ∧
    sampleProviderAuto.proxiesClone.2 = sampleProviderAuto :=
  plainProvider_proxies_returns_construction_list "p" [sampleHandler] sampleHC
    sampleProviderAuto rfl

/-! ## C7 -/

/-- C7: `as_map()` of a constructed `PlainProvider` contains the keys
`name`, `type` and `vehicleType` holding exactly the construction name, the
provider's type tag and its vehicle tag, plus a `proxies` entry with one
summary per owned handle; and `as_map` never consults the health-check
engine state (so it cannot block on a probe). -/
theorem plainProvider_as_map_fields (name : String)
    (proxies : List AnyOutboundHandler) (hc : HealthCheck) (p : PlainProvider)
    (h : PlainProvider.new name proxies hc = Except.ok p) :
    lookupVal p.as_map "name" = some (Value.str name) ∧
    lookupVal p.as_map "type" =
      some (Value.str (ProviderType.toString p.typ)) ∧
    lookupVal p.as_map "vehicleType" =
      some (Value.str (ProviderVehicleType.toString p.vehicle_type)) ∧
    lookupVal p.as_map "proxies" =
      some (Value.seq (proxies.map (fun x => Value.map x.as_map))) ∧
    (∀ hc2 : HealthCheck,
      PlainProvider.as_map { p with inner := { hc := hc2 } } = p.as_map) := by
  have hp := new_ok_inv name proxies hc p h
  subst hp
  refine ⟨?_, ?_, ?_, ?_, ?_⟩ <;>
    simp [PlainProvider.as_map, lookupVal, PlainProvider.proxiesClone,
      PlainProvider.typ, PlainProvider.vehicle_type]

/-- Witness for C7 at the sample provider: the three identity keys and the
per-handle summary list are all present with the constructed values. -/
theorem plainProvider_as_map_fields_witness :
    lookupVal sampleProviderAuto.as_map "name" = some (Value.str "p") ∧
    lookupVal sampleProviderAuto.as_map "type" =
      some (Value.str (ProviderType.toString sampleProviderAuto.typ)) ∧
    lookupVal sampleProviderAuto.as_map "vehicleType" =
      some (Value.str (ProviderVehicleType.toString sampleProviderAuto.vehicle_type)) ∧
    lookupVal sampleProviderAuto.as_map "proxies" =
      some (Value.seq ([sampleHandler].map (fun x => Value.map x.as_map))) :=
  ⟨(plainProvider_as_map_fields "p" [sampleHandler] sampleHC sampleProviderAuto rfl).1,
   (plainProvider_as_map_fields "p" [sampleHandler] sampleHC sampleProviderAuto rfl).2.1,
   (plainProvider_as_map_fields "p" [sampleHandler] sampleHC sampleProviderAuto rfl).2.2.1,
   (plainProvider_as_map_fields "p" [sampleHandler] sampleHC sampleProviderAuto rfl).2.2.2.1⟩

/-! ## Helper lemmas for the config decoders -/

/-- The five `type` tag values of `OutboundGroupProtocol`. -/
def isGroupTag (t : String) : Prop :=
  t = "relay" ∨ t = "url-test" ∨ t = "fallback" ∨ t = "load-balance" ∨ t = "select"

/-- A serde failure surfaces through `TryFrom` as `InvalidConfig`. -/
theorem tryFrom_of_deserialize_error {m : List (String × Value)} {s : String}
    (h : OutboundGroupProtocol.deserialize m = Except.error s) :
    OutboundGroupProtocol.tryFrom m = Except.error (Error.invalidConfig s) := by
  unfold OutboundGroupProtocol.tryFrom
  rw [h]
  rfl

/-- A serde success surfaces through `TryFrom` unchanged. -/
theorem tryFrom_of_deserialize_ok {m : List (String × Value)} {g : OutboundGroupProtocol}
    (h : OutboundGroupProtocol.deserialize m = Except.ok g) :
    OutboundGroupProtocol.tryFrom m = Except.ok g := by
  unfold OutboundGroupProtocol.tryFrom
  rw [h]
  rfl

/-- Both halves of the tag-gate property hold whenever deserialization
errors out. -/
theorem tag_gate_of_error {m : List (String × Value)} (s : String)
    (hd : OutboundGroupProtocol.deserialize m = Except.error s) :
    (∀ g, OutboundGroupProtocol.tryFrom m = Except.ok g →
      ∃ t, lookupVal m "type" = some (Value.str t) ∧ isGroupTag t) ∧
    ((¬ ∃ t, lookupVal m "type" = some (Value.str t) ∧ isGroupTag t) →
      ∃ s2, OutboundGroupProtocol.tryFrom m = Except.error (Error.invalidConfig s2)) := by
  constructor
  · intro g hg
    rw [tryFrom_of_deserialize_error hd] at hg
    exact Except.noConfusion hg
  · intro h
    exact ⟨s, tryFrom_of_deserialize_error hd⟩

/-- Both halves of the tag-gate property hold whenever the tag is one of
the five group tags. -/
theorem tag_gate_of_tag {m : List (String × Value)} {t : String}
    (hl : lookupVal m "type" = some (Value.str t)) (ht : isGroupTag t) :
    (∀ g, OutboundGroupProtocol.tryFrom m = Except.ok g →
      ∃ t2, lookupVal m "type" = some (Value.str t2) ∧ isGroupTag t2) ∧
    ((¬ ∃ t2, lookupVal m "type" = some (Value.str t2) ∧ isGroupTag t2) →
      ∃ s2, OutboundGroupProtocol.tryFrom m = Except.error (Error.invalidConfig s2)) :=
  ⟨fun _ _ => ⟨t, hl, ht⟩, fun hne => absurd ⟨t, hl, ht⟩ hne⟩

/-- Inversion of `Except` bind on success. -/
theorem except_bind_ok {ε α β : Type} {x : Except ε α} {f : α → Except ε β} {b : β}
    (h : x >>= f = Except.ok b) : ∃ a, x = Except.ok a ∧ f a = Except.ok b := by
  cases x with
  | error e => exact Except.noConfusion h
  | ok a => exact ⟨a, rfl, h⟩

/-- Inversion of `getStr` on success: the key is present and holds exactly
that string. -/
theorem getStr_ok_inv {m : List (String × Value)} {k s : String}
    (h : getStr m k = Except.ok s) : lookupVal m k = some (Value.str s) := by
  unfold getStr at h
  cases hl : lookupVal m k with
  | none =>
      rw [hl] at h
      exact Except.noConfusion h
  | some v =>
      rw [hl] at h
      cases v <;> simp_all

/-- Inversion of `getU64` on success: the key is present and its value goes
through `deserialize_u64`. -/
theorem getU64_ok_inv {m : List (String × Value)} {k : String} {n : Nat}
    (h : getU64 m k = Except.ok n) :
    ∃ v, lookupVal m k = some v ∧ deserialize_u64 v = Except.ok n := by
  unfold getU64 at h
  cases hl : lookupVal m k with
  | none =>
      rw [hl] at h
      exact Except.noConfusion h
  | some v =>
      rw [hl] at h
      exact ⟨v, rfl, h⟩

/-- The `deserialize_u64` accepts a bare integer in the `u64` range. -/
theorem deserialize_u64_int_ok {n : Int} (h0 : 0 ≤ n)
    (hlt : n < 18446744073709551616) :
    deserialize_u64 (Value.int n) = Except.ok n.toNat := by
  simp [deserialize_u64, h0, hlt]

/-- A sequence of string values decodes back to the underlying strings. -/
theorem strListOf_map_str (l : List String) :
    strListOf (l.map Value.str) = Except.ok l := by
  induction l with
  | nil => rfl
  | cons a t ih => simp [strListOf, ih, Except.map]

/-! ## C8 -/

/-- C8: `OutboundGroupProtocol::try_from` succeeds only when the `type` tag
is a string among relay, url-test, fallback, load-balance, select; a
missing tag, a non-string tag, or any other tag value makes it fail with an
`InvalidConfig` error. -/
theorem outboundGroup_tryFrom_tag_gate (m : List (String × Value)) :
    (∀ g, OutboundGroupProtocol.tryFrom m = Except.ok g →
      ∃ t, lookupVal m "type" = some (Value.str t) ∧ isGroupTag t) ∧
    ((¬ ∃ t, lookupVal m "type" = some (Value.str t) ∧ isGroupTag t) →
      ∃ s, OutboundGroupProtocol.tryFrom m = Except.error (Error.invalidConfig s)) := by
  obtain ⟨v, hl⟩ | hl : (∃ v, lookupVal m "type" = some v) ∨ lookupVal m "type" = none := by
    cases lookupVal m "type" with
    | none => exact Or.inr rfl
    | some v => exact Or.inl ⟨v, rfl⟩
  · cases v with
    | str t =>
        by_cases h1 : t = "relay"
        · exact tag_gate_of_tag hl (Or.inl h1)
        by_cases h2 : t = "url-test"
        · exact tag_gate_of_tag hl (Or.inr (Or.inl h2))
        by_cases h3 : t = "fallback"
        · exact tag_gate_of_tag hl (Or.inr (Or.inr (Or.inl h3)))
        by_cases h4 : t = "load-balance"
        · exact tag_gate_of_tag hl (Or.inr (Or.inr (Or.inr (Or.inl h4))))
        by_cases h5 : t = "select"
        · exact tag_gate_of_tag hl (Or.inr (Or.inr (Or.inr (Or.inr h5))))
        refine tag_gate_of_error ("unknown variant " ++ t) ?_
        unfold OutboundGroupProtocol.deserialize
        rw [hl]
        simp [h1, h2, h3, h4, h5]
    | null =>
        refine tag_gate_of_error "invalid type: tag is not a string" ?_
        unfold OutboundGroupProtocol.deserialize
        rw [hl]
    | bool b =>
        refine tag_gate_of_error "invalid type: tag is not a string" ?_
        unfold OutboundGroupProtocol.deserialize
        rw [hl]
    | int n =>
        refine tag_gate_of_error "invalid type: tag is not a string" ?_
        unfold OutboundGroupProtocol.deserialize
        rw [hl]
    | seq vs =>
        refine tag_gate_of_error "invalid type: tag is not a string" ?_
        unfold OutboundGroupProtocol.deserialize
        rw [hl]
    | map kvs =>
        refine tag_gate_of_error "invalid type: tag is not a string" ?_
        unfold OutboundGroupProtocol.deserialize
        rw [hl]
  · refine tag_gate_of_error "missing field type" ?_
    unfold OutboundGroupProtocol.deserialize
    rw [hl]

/-- A select-group mapping that deserializes successfully (used by
witnesses). -/
def selectOkMap : List (String × Value) :=
  [("type", Value.str "select"), ("name", Value.str "g"),
   ("proxies", Value.seq [Value.str "a"])]

/-- Witness for C8: a successful conversion exposes one of the five tags,
and the unknown tag `quic` is rejected with `InvalidConfig`. -/
theorem outboundGroup_tryFrom_tag_gate_witness :
    (∃ t, lookupVal selectOkMap "type" = some (Value.str t) ∧ isGroupTag t) ∧
    (∃ s, OutboundGroupProtocol.tryFrom [("type", Value.str "quic")] =
      Except.error (Error.invalidConfig s)) :=
  ⟨(outboundGroup_tryFrom_tag_gate selectOkMap).1
      (OutboundGroupProtocol.Select
        { name := "g", proxies := some ["a"], use_provider := none }) rfl,
   (outboundGroup_tryFrom_tag_gate [("type", Value.str "quic")]).2 (by
      rintro ⟨t, ht, hmem⟩
      simp [lookupVal] at ht
      subst ht
      simp [isGroupTag] at hmem)⟩

/-! ## C3 -/

/-- A fallback-group mapping that omits `proxies` but supplies a `use`
list, together with both required health-check fields. -/
def fallbackUseOnlyMap : List (String × Value) :=
  [("type", Value.str "fallback"), ("name", Value.str "g"),
   ("url", Value.str "http://example.com"), ("interval", Value.int 60),
   ("use", Value.seq [Value.str "provider1"])]

/-- C3 counterexample: a mapping that omits `proxies` but supplies `use`
does NOT deserialize for the fallback kind — `OutboundGroupFallback`
declares `proxies` as a required `Vec<String>` and has no `use` field, so
the conversion fails with an `InvalidConfig` error. -/
theorem fallback_use_without_proxies_rejected :
    OutboundGroupProtocol.tryFrom fallbackUseOnlyMap =
      Except.error (Error.invalidConfig "missing field proxies") := rfl

/-- C3 (amended): relay, url-test, load-balance and select treat `proxies`
and `use` as optional shared fields — a mapping omitting `proxies` but
supplying a `use` list deserializes successfully for those four kinds —
but fallback requires `proxies` (and has no `use` field), so the same
shape fails for it with an `InvalidConfig` error. -/
theorem group_proxies_use_optional_except_fallback (name url : String)
    (uses : List String) (n : Int) (hn : 0 ≤ n ∧ n < 18446744073709551616) :
    (OutboundGroupProtocol.tryFrom
        [("type", Value.str "relay"), ("name", Value.str name),
         ("use", Value.seq (uses.map Value.str))] =
      Except.ok (OutboundGroupProtocol.Relay
        { name := name, proxies := none, use_provider := some uses })) ∧
    (OutboundGroupProtocol.tryFrom
        [("type", Value.str "url-test"), ("name", Value.str name),
         ("url", Value.str url), ("interval", Value.int n),
         ("use", Value.seq (uses.map Value.str))] =
      Except.ok (OutboundGroupProtocol.UrlTest
        { name := name, proxies := none, use_provider := some uses,
          url := url, interval := n.toNat, tolerance := none, lazy := none })) ∧
    (OutboundGroupProtocol.tryFrom
        [("type", Value.str "load-balance"), ("name", Value.str name),
         ("url", Value.str url), ("interval", Value.int n),
         ("use", Value.seq (uses.map Value.str))] =
      Except.ok (OutboundGroupProtocol.LoadBalance
        { name := name, proxies := none, use_provider := some uses,
          url := url, interval := n.toNat, strategy := none })) ∧
    (OutboundGroupProtocol.tryFrom
        [("type", Value.str "select"), ("name", Value.str name),
         ("use", Value.seq (uses.map Value.str))] =
      Except.ok (OutboundGroupProtocol.Select
        { name := name, proxies := none, use_provider := some uses })) ∧
    (∃ s, OutboundGroupProtocol.tryFrom
        [("type", Value.str "fallback"), ("name", Value.str name),
         ("url", Value.str url), ("interval", Value.int n),
         ("use", Value.seq (uses.map Value.str))] =
      Except.error (Error.invalidConfig s)) := by
  refine ⟨?_, ?_, ?_, ?_, ⟨"missing field proxies", ?_⟩⟩ <;>
    simp [OutboundGroupProtocol.tryFrom, OutboundGroupProtocol.deserialize,
      lookupVal, decodeRelay, decodeUrlTest, decodeLoadBalance, decodeSelect,
      decodeFallback, getStr, getOptStrList, getStrList, asStrList,
      strListOf_map_str, getU64, deserialize_u64_int_ok hn.1 hn.2,
      getOptI32, getOptBool, getOptStrategy, Except.mapError, Except.map,
      map_serde_error, Bind.bind, Except.bind, Pure.pure, Except.pure]

/-- Witness for C3 (amended) at concrete inputs: relay accepts the
`use`-only shape, fallback rejects it. -/
theorem group_proxies_use_optional_except_fallback_witness :
    (OutboundGroupProtocol.tryFrom
        [("type", Value.str "relay"), ("name", Value.str "g"),
         ("use", Value.seq [Value.str "p1"])] =
      Except.ok (OutboundGroupProtocol.Relay
        { name := "g", proxies := none, use_provider := some ["p1"] })) ∧
    (∃ s, OutboundGroupProtocol.tryFrom
        [("type", Value.str "fallback"), ("name", Value.str "g"),
         ("url", Value.str "u"), ("interval", Value.int 60),
         ("use", Value.seq [Value.str "p1"])] =
      Except.error (Error.invalidConfig s)) :=
  ⟨(group_proxies_use_optional_except_fallback "g" "u" ["p1"] 60
      (by constructor <;> decide)).1,
   (group_proxies_use_optional_except_fallback "g" "u" ["p1"] 60
      (by constructor <;> decide)).2.2.2.2⟩

/-! ## C9 -/

/-- Inversion of `decodeUrlTest` on success: `url` is present as a string
and `interval` is present with a value accepted by `deserialize_u64`. -/
theorem decodeUrlTest_ok_inv {m : List (String × Value)} {g : OutboundGroupUrlTest}
    (h : decodeUrlTest m = Except.ok g) :
    lookupVal m "url" = some (Value.str g.url) ∧
    ∃ v, lookupVal m "interval" = some v ∧ deserialize_u64 v = Except.ok g.interval := by
  unfold decodeUrlTest at h
  obtain ⟨nm, h1, h⟩ := except_bind_ok h
  obtain ⟨px, h2, h⟩ := except_bind_ok h
  obtain ⟨up, h3, h⟩ := except_bind_ok h
  obtain ⟨u, h4, h⟩ := except_bind_ok h
  obtain ⟨iv, h5, h⟩ := except_bind_ok h
  obtain ⟨tol, h6, h⟩ := except_bind_ok h
  obtain ⟨lz, h7, h⟩ := except_bind_ok h
  have hg := Except.ok.inj h
  subst hg
  exact ⟨getStr_ok_inv h4, getU64_ok_inv h5⟩

/-- Inversion of `decodeFallback` on success. -/
theorem decodeFallback_ok_inv {m : List (String × Value)} {g : OutboundGroupFallback}
    (h : decodeFallback m = Except.ok g) :
    lookupVal m "url" = some (Value.str g.url) ∧
    ∃ v, lookupVal m "interval" = some v ∧ deserialize_u64 v = Except.ok g.interval := by
  unfold decodeFallback at h
  obtain ⟨nm, h1, h⟩ := except_bind_ok h
  obtain ⟨px, h2, h⟩ := except_bind_ok h
  obtain ⟨u, h3, h⟩ := except_bind_ok h
  obtain ⟨iv, h4, h⟩ := except_bind_ok h
  have hg := Except.ok.inj h
  subst hg
  exact ⟨getStr_ok_inv h3, getU64_ok_inv h4⟩

/-- Inversion of `decodeLoadBalance` on success. -/
theorem decodeLoadBalance_ok_inv {m : List (String × Value)}
    {g : OutboundGroupLoadBalance} (h : decodeLoadBalance m = Except.ok g) :
    lookupVal m "url" = some (Value.str g.url) ∧
    ∃ v, lookupVal m "interval" = some v ∧ deserialize_u64 v = Except.ok g.interval := by
  unfold decodeLoadBalance at h
  obtain ⟨nm, h1, h⟩ := except_bind_ok h
  obtain ⟨px, h2, h⟩ := except_bind_ok h
  obtain ⟨up, h3, h⟩ := except_bind_ok h
  obtain ⟨u, h4, h⟩ := except_bind_ok h
  obtain ⟨iv, h5, h⟩ := except_bind_ok h
  obtain ⟨st, h6, h⟩ := except_bind_ok h
  have hg := Except.ok.inj h
  subst hg
  exact ⟨getStr_ok_inv h4, getU64_ok_inv h5⟩

/-- C9: for url-test, fallback and load-balance mappings, `url` and
`interval` are required (any successful decode found both, `interval`
through `deserialize_u64`); `deserialize_u64` accepts exactly a bare
integer in the non-negative unsigned-64-bit range and rejects a negative
or non-integer value; and every failed group conversion surfaces as an
`InvalidConfig` error rather than a success. -/
theorem url_interval_required_u64 :
    (∀ m (g : OutboundGroupUrlTest), decodeUrlTest m = Except.ok g →
      lookupVal m "url" = some (Value.str g.url) ∧
      ∃ v, lookupVal m "interval" = some v ∧
        deserialize_u64 v = Except.ok g.interval) ∧
    (∀ m (g : OutboundGroupFallback), decodeFallback m = Except.ok g →
      lookupVal m "url" = some (Value.str g.url) ∧
      ∃ v, lookupVal m "interval" = some v ∧
        deserialize_u64 v = Except.ok g.interval) ∧
    (∀ m (g : OutboundGroupLoadBalance), decodeLoadBalance m = Except.ok g →
      lookupVal m "url" = some (Value.str g.url) ∧
      ∃ v, lookupVal m "interval" = some v ∧
        deserialize_u64 v = Except.ok g.interval) ∧
    (∀ n : Int, 0 ≤ n → n < 18446744073709551616 →
      deserialize_u64 (Value.int n) = Except.ok n.toNat) ∧
    (∀ n : Int, n < 0 →
      deserialize_u64 (Value.int n) =
        Except.error "invalid value: expected a non-negative integer") ∧
    (∀ s, deserialize_u64 (Value.str s) =
      Except.error "invalid type: expected an integer") ∧
    (∀ m, (∃ g, OutboundGroupProtocol.tryFrom m = Except.ok g) ∨
      (∃ s, OutboundGroupProtocol.tryFrom m =
        Except.error (Error.invalidConfig s))) := by
  refine ⟨fun m g h => decodeUrlTest_ok_inv h,
          fun m g h => decodeFallback_ok_inv h,
          fun m g h => decodeLoadBalance_ok_inv h,
          fun n h0 hlt => deserialize_u64_int_ok h0 hlt,
          fun n hneg => ?_, fun s => rfl, fun m => ?_⟩
  · have hcond : ¬ (0 ≤ n ∧ n < 18446744073709551616) := by
      rintro ⟨h0, _⟩
      omega
    simp [deserialize_u64, hcond]
  · cases hd : OutboundGroupProtocol.deserialize m with
    | ok g => exact Or.inl ⟨g, tryFrom_of_deserialize_ok hd⟩
    | error s => exact Or.inr ⟨s, tryFrom_of_deserialize_error hd⟩

/-- A minimal url-test body mapping (optional fields all absent). -/
def urlTestOkBody : List (String × Value) :=
  [("name", Value.str "g"), ("url", Value.str "u"), ("interval", Value.int 30)]

/-- A minimal fallback body mapping. -/
def fallbackOkBody : List (String × Value) :=
  [("name", Value.str "g"), ("proxies", Value.seq [Value.str "a"]),
   ("url", Value.str "u"), ("interval", Value.int 30)]

/-- Witness for C9 at concrete inputs: a successful url-test and fallback
decode expose `url`/`interval`, `deserialize_u64` accepts 60, rejects -1
and rejects a string, and a malformed mapping fails as `InvalidConfig`. -/
theorem url_interval_required_u64_witness :
    (lookupVal urlTestOkBody "url" = some (Value.str "u") ∧
      ∃ v, lookupVal urlTestOkBody "interval" = some v ∧
        deserialize_u64 v = Except.ok 30) ∧
    (lookupVal fallbackOkBody "url" = some (Value.str "u") ∧
      ∃ v, lookupVal fallbackOkBody "interval" = some v ∧
        deserialize_u64 v = Except.ok 30) ∧
    deserialize_u64 (Value.int 60) = Except.ok 60 ∧
    deserialize_u64 (Value.int (-1)) =
      Except.error "invalid value: expected a non-negative integer" ∧
    deserialize_u64 (Value.str "sixty") =
      Except.error "invalid type: expected an integer" :=
  ⟨url_interval_required_u64.1 urlTestOkBody
      { name := "g", proxies := none, use_provider := none, url := "u",
        interval := 30, tolerance := none, lazy := none } rfl,
   url_interval_required_u64.2.1 fallbackOkBody
      { name := "g", proxies := ["a"], url := "u", interval := 30 } rfl,
   url_interval_required_u64.2.2.2.1 60 (by decide) (by decide),
   url_interval_required_u64.2.2.2.2.1 (-1) (by decide),
   url_interval_required_u64.2.2.2.2.2.1 "sixty"⟩

/-! ## C10 -/

/-- C10: configuration deserialization can never produce the built-in
`Direct` or `Reject` variants — every successful
`OutboundProxyProtocol::try_from` yields `Ss`, `Socks5` or `Trojan` (the
skipped variants have no tag) — and `name()` of those two variants is the
fixed string `DIRECT` resp. `REJECT`. -/
theorem direct_reject_not_deserializable :
    (∀ m p, OutboundProxyProtocol.tryFrom m = Except.ok p →
      (∃ ss, p = OutboundProxyProtocol.Ss ss) ∨
      (∃ s5, p = OutboundProxyProtocol.Socks5 s5) ∨
      (∃ tr, p = OutboundProxyProtocol.Trojan tr)) ∧
    OutboundProxyProtocol.name OutboundProxyProtocol.Direct = PROXY_DIRECT ∧
    OutboundProxyProtocol.name OutboundProxyProtocol.Reject = PROXY_REJECT ∧
    PROXY_DIRECT = "DIRECT" ∧ PROXY_REJECT = "REJECT" := by
  refine ⟨?_, rfl, rfl, rfl, rfl⟩
  intro m p h
  unfold OutboundProxyProtocol.tryFrom OutboundProxyProtocol.deserialize at h
  obtain ⟨v, hl⟩ | hl : (∃ v, lookupVal m "type" = some v) ∨ lookupVal m "type" = none := by
    cases lookupVal m "type" with
    | none => exact Or.inr rfl
    | some v => exact Or.inl ⟨v, rfl⟩
  · rw [hl] at h
    cases v with
    | str t =>
        by_cases h1 : t = "ss"
        · cases hd : decodeShadowsocks m with
          | ok a =>
              simp [h1, hd, Except.map, Except.mapError] at h
              exact Or.inl ⟨a, h.symm⟩
          | error e => simp [h1, hd, Except.map, Except.mapError] at h
        by_cases h2 : t = "socks5"
        · cases hd : decodeSocks5 m with
          | ok a =>
              simp [h1, h2, hd, Except.map, Except.mapError] at h
              exact Or.inr (Or.inl ⟨a, h.symm⟩)
          | error e => simp [h1, h2, hd, Except.map, Except.mapError] at h
        by_cases h3 : t = "trojan"
        · cases hd : decodeTrojan m with
          | ok a =>
              simp [h1, h2, h3, hd, Except.map, Except.mapError] at h
              exact Or.inr (Or.inr ⟨a, h.symm⟩)
          | error e => simp [h1, h2, h3, hd, Except.map, Except.mapError] at h
        simp [h1, h2, h3, Except.mapError] at h
    | null => exact Except.noConfusion h
    | bool b => exact Except.noConfusion h
    | int n => exact Except.noConfusion h
    | seq vs => exact Except.noConfusion h
    | map kvs => exact Except.noConfusion h
  · rw [hl] at h
    exact Except.noConfusion h

/-- A shadowsocks proxy mapping that deserializes successfully. -/
def ssOkMap : List (String × Value) :=
  [("type", Value.str "ss"), ("name", Value.str "proxy1"),
   ("server", Value.str "1.2.3.4"), ("port", Value.int 8388),
   ("cipher", Value.str "aes-128-gcm"), ("password", Value.str "secret"),
   ("udp", Value.bool false)]

/-- The decoded form of `ssOkMap`. -/
def ssOkParsed : OutboundShadowsocks :=
  { name := "proxy1", server := "1.2.3.4", port := 8388,
    cipher := "aes-128-gcm", password := "secret", udp := false,
    plugin := none, plugin_opts := none }

/-- Witness for C10: a successful conversion lands in one of the three
deserializable variants. -/
theorem direct_reject_not_deserializable_witness :
    (∃ ss, OutboundProxyProtocol.Ss ssOkParsed = OutboundProxyProtocol.Ss ss) ∨
    (∃ s5, OutboundProxyProtocol.Ss ssOkParsed = OutboundProxyProtocol.Socks5 s5) ∨
    (∃ tr, OutboundProxyProtocol.Ss ssOkParsed = OutboundProxyProtocol.Trojan tr) :=
  direct_reject_not_deserializable.1 ssOkMap (OutboundProxyProtocol.Ss ssOkParsed) rfl

end Clash
